import Mathlib

/-!
Verification development for the glue-mcp catalog service facade.

The facade (src/lib.rs) exposes three AWS Glue Data Catalog read operations
as MCP tools, plus server metadata and demo resource handlers. We embed the
request/response mapping shallowly: the AWS client is modelled as an oracle
structure giving each backend call's outcome, the JSON serializer is an
oracle (so its failure path is representable), and every operation returns
its result paired with an explicit list of side effects (log lines, backend
calls, metric counter increments) mirroring the side-effecting statements of
the source in program order.
-/

namespace GlueMcp

/-- A JSON value as produced by the serializer; strings, numbers, arrays and
objects suffice for every payload this program builds. -/
inductive Json where
  | str (s : String)
  | num (n : Nat)
  | arr (xs : List Json)
  | obj (fields : List (String × Json))

/-- Description of a failed AWS SDK call, as rendered by `e.to_string()`. -/
structure AwsError where
  msg : String
deriving DecidableEq

/-- Description of a failed `serde_json::to_value` call. -/
structure SerdeError where
  msg : String
deriving DecidableEq

/-- The MCP error kinds this program constructs. -/
inductive ErrorCode where
  | internal_error
  | invalid_params
  | resource_not_found
deriving DecidableEq

/-- `rmcp::Error`: an error code, a message, and an optional JSON payload. -/
structure McpError where
  code : ErrorCode
  message : String
  data : Option Json

/-- `McpError::internal_error(message, data)`. -/
def McpError.internal_error (m : String) (d : Option Json) : McpError :=
  ⟨ErrorCode.internal_error, m, d⟩

/-- `McpError::resource_not_found(message, data)`. -/
def McpError.resource_not_found (m : String) (d : Option Json) : McpError :=
  ⟨ErrorCode.resource_not_found, m, d⟩

/-- The payload built by the source at each failure site:
a JSON object with one field named error holding the description. -/
def errJson (s : String) : Json := Json.obj [("error", Json.str s)]

/-- A Glue column (only its required name is read by this program). -/
structure Column where
  name : String
deriving DecidableEq

/-- A Glue storage descriptor: its column list. -/
structure StorageDescriptor where
  columns : List Column
deriving DecidableEq

/-- A Glue table: required name, optional storage descriptor. -/
structure Table where
  name : String
  storage_descriptor : Option StorageDescriptor
deriving DecidableEq

/-- A Glue database (only its required name is read by this program). -/
structure Database where
  name : String
deriving DecidableEq

/-- First page of `GetDatabases`, as returned by the client library. -/
structure GetDatabasesResponse where
  database_list : List Database
deriving DecidableEq

/-- First page of `GetTables` for a database. -/
structure GetTablesResponse where
  table_list : List Table
deriving DecidableEq

/-- `GetTable` response: the table is optional in the AWS model. -/
structure GetTableResponse where
  table : Option Table
deriving DecidableEq

/-- Output record of `list_databases`. -/
structure ListDatabasesResult where
  databases : List String
deriving DecidableEq

/-- Output record of `get_database_metadata`. -/
structure DatabaseMetadata where
  name : String
  tables : List String
deriving DecidableEq

/-- Output record of `get_table_metadata`. -/
structure TableMetadata where
  name : String
  columns : List String
deriving DecidableEq

/-- The AWS Glue client handle, modelled as an oracle: a region string and,
for each of the three API calls the program makes, the outcome the backend
would return for given arguments. The handle is immutable, so one outcome
per argument tuple is faithful for single-call properties. -/
structure GlueClient where
  region : String
  databases_response : Except AwsError GetDatabasesResponse
  tables_response : String → Except AwsError GetTablesResponse
  table_response : String → String → Except AwsError GetTableResponse

/-- The facade: owns a single client handle and nothing else. -/
structure GlueDataCatalog where
  client : GlueClient

/-- The `serde_json::to_value` collaborator, one oracle per record type, so
that the (practically unreachable) serialization-failure path of the source
is representable. -/
structure Serde where
  ser_databases : ListDatabasesResult → Except SerdeError Json
  ser_database_metadata : DatabaseMetadata → Except SerdeError Json
  ser_table_metadata : TableMetadata → Except SerdeError Json

/-- The actual `serde_json` encoding of `ListDatabasesResult` (derive
Serialize on a plain struct; total). -/
def ListDatabasesResult.toJson (r : ListDatabasesResult) : Json :=
  Json.obj [("databases", Json.arr (r.databases.map Json.str))]

/-- The actual `serde_json` encoding of `DatabaseMetadata`. -/
def DatabaseMetadata.toJson (r : DatabaseMetadata) : Json :=
  Json.obj [("name", Json.str r.name), ("tables", Json.arr (r.tables.map Json.str))]

/-- The actual `serde_json` encoding of `TableMetadata`. -/
def TableMetadata.toJson (r : TableMetadata) : Json :=
  Json.obj [("name", Json.str r.name), ("columns", Json.arr (r.columns.map Json.str))]

/-- The real serializer: `serde_json::to_value` never fails on these plain
string/vector records. -/
def serdeJson : Serde :=
  ⟨fun r => Except.ok r.toJson, fun r => Except.ok r.toJson, fun r => Except.ok r.toJson⟩

/-- One side effect of an operation, in program order: an informational log
line, one of the three backend API calls (with the exact arguments passed),
or a metric counter increment (present in the model so that its absence from
every trace is a provable statement about the code). -/
inductive Effect where
  | logInfo (msg : String)
  | callGetDatabases
  | callGetTables (database_name : String)
  | callGetTable (database_name : String) (table_name : String)
  | counterIncr (labels : List (String × String))
deriving DecidableEq

/-- Whether an effect is a backend API call. -/
def Effect.isBackendCall : Effect → Bool
  | Effect.callGetDatabases => true
  | Effect.callGetTables _ => true
  | Effect.callGetTable _ _ => true
  | _ => false

/-- Whether an effect is a metric counter increment. -/
def Effect.isCounterIncr : Effect → Bool
  | Effect.counterIncr _ => true
  | _ => false

/-- MCP tool content; the program only ever builds JSON and text content. -/
inductive Content where
  | json (j : Json)
  | text (s : String)

/-- `rmcp::model::CallToolResult`. -/
structure CallToolResult where
  content : List Content
  is_error : Option Bool

/-- `CallToolResult::success`. -/
def CallToolResult.success (c : List Content) : CallToolResult := ⟨c, some false⟩

/-- The database-name projection of `list_databases`
(lines 62-65 of src/lib.rs): map each entry to its name, nothing else. -/
def databasesOf (response : GetDatabasesResponse) : List String :=
  response.database_list.map (fun db => db.name)

/-- The table-name projection of `get_database_metadata`
(lines 99-102 of src/lib.rs). -/
def tablesOf (response : GetTablesResponse) : List String :=
  response.table_list.map (fun t => t.name)

/-- The column extraction of `get_table_metadata` (lines 144-150 of
src/lib.rs): optional table, then optional storage descriptor, then its
columns, defaulting to the empty list, mapped to names. -/
def columnsOf (response : GetTableResponse) : List String :=
  (((response.table.bind (fun t => t.storage_descriptor)).bind
      (fun descr => some descr.columns)).getD []).map (fun col => col.name)

/-- `list_databases` (src/lib.rs lines 50-76): log, call `GetDatabases`
once, map names, serialize, wrap. Returns the result paired with the effect
trace. -/
def list_databases (self : GlueDataCatalog) (sd : Serde) :
    Except McpError CallToolResult × List Effect :=
  (match self.client.databases_response with
   | Except.error e =>
       Except.error (McpError.internal_error "Failed to list databases" (some (errJson e.msg)))
   | Except.ok response =>
       match sd.ser_databases ⟨databasesOf response⟩ with
       | Except.error e =>
           Except.error (McpError.internal_error "Failed to serialize result" (some (errJson e.msg)))
       | Except.ok json_result =>
           Except.ok (CallToolResult.success [Content.json json_result]),
   [Effect.logInfo ("Listing databases in " ++ self.client.region),
    Effect.callGetDatabases])

/-- `get_database_metadata` (src/lib.rs lines 81-117): log, call `GetTables`
scoped to the given database name, echo the input name, map table names,
serialize, wrap. -/
def get_database_metadata (self : GlueDataCatalog) (sd : Serde)
    (database_name : String) :
    Except McpError CallToolResult × List Effect :=
  (match self.client.tables_response database_name with
   | Except.error e =>
       Except.error (McpError.internal_error "Failed to get tables" (some (errJson e.msg)))
   | Except.ok response =>
       match sd.ser_database_metadata ⟨database_name, tablesOf response⟩ with
       | Except.error e =>
           Except.error (McpError.internal_error "Failed to serialize result" (some (errJson e.msg)))
       | Except.ok json_result =>
           Except.ok (CallToolResult.success [Content.json json_result]),
   [Effect.logInfo ("Getting tables for database " ++ database_name),
    Effect.callGetTables database_name])

/-- `get_table_metadata` (src/lib.rs lines 122-167): log, call `GetTable`
for the pair, extract columns through the optional chain, log the resulting
column count (this second log happens on backend success whatever the
serializer then does), echo the input table name, serialize, wrap. -/
def get_table_metadata (self : GlueDataCatalog) (sd : Serde)
    (database_name : String) (table_name : String) :
    Except McpError CallToolResult × List Effect :=
  match self.client.table_response database_name table_name with
  | Except.error e =>
      (Except.error (McpError.internal_error "Failed to get table metadata" (some (errJson e.msg))),
       [Effect.logInfo ("Getting columns for table " ++ table_name),
        Effect.callGetTable database_name table_name])
  | Except.ok response =>
      (match sd.ser_table_metadata ⟨table_name, columnsOf response⟩ with
       | Except.error e =>
           Except.error (McpError.internal_error "Failed to serialize result" (some (errJson e.msg)))
       | Except.ok json_result =>
           Except.ok (CallToolResult.success [Content.json json_result]),
       [Effect.logInfo ("Getting columns for table " ++ table_name),
        Effect.callGetTable database_name table_name,
        Effect.logInfo ("Got " ++ toString (columnsOf response).length ++
          " columns for table " ++ table_name)])

/-- `from_env` (src/lib.rs lines 42-47): build the client from ambient
configuration, probe the backend with one `GetDatabases` call, and abort
(`expect`) if the probe fails. Abortion is modelled as `none`. -/
def from_env (client : GlueClient) : Option GlueDataCatalog × List Effect :=
  (match client.databases_response with
   | Except.error _ => none
   | Except.ok _ => some ⟨client⟩,
   [Effect.callGetDatabases])

/-- MCP tools capability flag record. -/
structure ToolsCapability where
  list_changed : Option Bool
deriving DecidableEq

/-- MCP prompts capability flag record. -/
structure PromptsCapability where
  list_changed : Option Bool
deriving DecidableEq

/-- MCP resources capability flag record (subscription advertisement). -/
structure ResourcesCapability where
  subscribe : Option Bool
  list_changed : Option Bool
deriving DecidableEq

/-- `rmcp::model::ServerCapabilities`: each capability is absent (`none`)
unless explicitly enabled by the builder. -/
structure ServerCapabilities where
  prompts : Option PromptsCapability
  resources : Option ResourcesCapability
  tools : Option ToolsCapability
deriving DecidableEq

/-- `ServerCapabilities::builder()`: everything off. -/
def ServerCapabilities.builder : ServerCapabilities := ⟨none, none, none⟩

/-- `.enable_tools()`: turn on the tools capability with default flags. -/
def ServerCapabilities.enable_tools (c : ServerCapabilities) : ServerCapabilities :=
  ⟨c.prompts, c.resources, some ⟨none⟩⟩

/-- `.build()`: the builder is the capability record itself. -/
def ServerCapabilities.build (c : ServerCapabilities) : ServerCapabilities := c

/-- `rmcp::model::Implementation`: the package identity baked in at build
time by `Implementation::from_build_env()`; modelled as a parameter since
its strings come from the build environment, not from this code. -/
structure Implementation where
  name : String
  version : String
deriving DecidableEq

/-- The fixed protocol version constant `ProtocolVersion::V_2024_11_05`. -/
def V_2024_11_05 : String := "2024-11-05"

/-- `rmcp::model::ServerInfo`. -/
structure ServerInfo where
  protocol_version : String
  capabilities : ServerCapabilities
  server_info : Implementation
  instructions : Option String

/-- The instructions string of src/lib.rs line 190. -/
def instructionsText : String :=
  "This server provides a glue data catalog tool that can be used to get database and table metadata from an AWS Glue Data Catalog"

/-- `get_info` (src/lib.rs lines 183-192): a fixed record, reading nothing
from the facade. `impl` stands for the build-time `from_build_env` constant. -/
def get_info (impl : Implementation) (_self : GlueDataCatalog) : ServerInfo :=
  ⟨V_2024_11_05, (ServerCapabilities.builder.enable_tools).build, impl,
   some instructionsText⟩

/-- An MCP resource entry; `list_resources` never constructs one (both
candidates are commented out in the source). -/
structure Resource where
  uri : String
  name : String
deriving DecidableEq

/-- `rmcp::model::ListResourcesResult`. -/
structure ListResourcesResult where
  resources : List Resource
  next_cursor : Option String
deriving DecidableEq

/-- `list_resources` (src/lib.rs lines 194-206): always the empty list with
no cursor, for any request. -/
def list_resources (_self : GlueDataCatalog) : Except McpError ListResourcesResult :=
  Except.ok ⟨[], none⟩

/-- Text resource contents: `ResourceContents::text(text, uri)` records the
URI it was read from together with the fixed text. -/
structure ResourceContents where
  uri : String
  text : String
deriving DecidableEq

/-- Helper mirroring `ResourceContents::text(text, uri)` (argument order of
the source: text first, then URI). -/
def textContents (txt : String) (uri : String) : ResourceContents := ⟨uri, txt⟩

/-- `rmcp::model::ReadResourceResult`. -/
structure ReadResourceResult where
  contents : List ResourceContents
deriving DecidableEq

/-- The memo text of src/lib.rs line 221. -/
def memoText : String :=
  "Business Intelligence Memo\n\nAnalysis has revealed 5 key insights ..."

/-- `read_resource` (src/lib.rs lines 208-233): a match on the URI string
with two fixed arms and a resource-not-found fallback. -/
def read_resource (_self : GlueDataCatalog) (uri : String) :
    Except McpError ReadResourceResult :=
  if uri = "str:////Users/to/some/path/" then
    Except.ok ⟨[textContents "/Users/to/some/path/" uri]⟩
  else if uri = "memo://insights" then
    Except.ok ⟨[textContents memoText uri]⟩
  else
    Except.error (McpError.resource_not_found "resource_not_found"
      (some (Json.obj [("uri", Json.str uri)])))

/-- A sample backend for concrete evaluation: two databases, one table with
two columns reachable through `tables_response`, and a table without a
storage descriptor reachable through `table_response`. -/
def clSales : GlueClient :=
  ⟨"eu-west-1",
   Except.ok ⟨[⟨"sales"⟩, ⟨"ops"⟩]⟩,
   fun _ => Except.ok ⟨[⟨"t1", some ⟨[⟨"id"⟩, ⟨"name"⟩]⟩⟩]⟩,
   fun _ _ => Except.ok ⟨some ⟨"t1", none⟩⟩⟩

/-- Facade over the sample backend. -/
def catSales : GlueDataCatalog := ⟨clSales⟩

/-- A backend failing every call with the description denied. -/
def clFail : GlueClient :=
  ⟨"eu-west-1",
   Except.error ⟨"denied"⟩,
   fun _ => Except.error ⟨"denied"⟩,
   fun _ _ => Except.error ⟨"denied"⟩⟩

/-- Facade over the failing backend. -/
def catFail : GlueDataCatalog := ⟨clFail⟩

/-- A serializer failing every record with the description boom. -/
def sdFail : Serde :=
  ⟨fun _ => Except.error ⟨"boom"⟩,
   fun _ => Except.error ⟨"boom"⟩,
   fun _ => Except.error ⟨"boom"⟩⟩

/-- C1: a successful `list_databases` call returns exactly the backend's
reported database names from the single first-page `GetDatabases` response,
in the same order and length (identity mapping, no sorting, filtering or
deduplication), and the call makes exactly one backend call. -/
theorem list_databases_identity (self : GlueDataCatalog) (sd : Serde)
    (response : GetDatabasesResponse)
    (hb : self.client.databases_response = Except.ok response)
    (out : CallToolResult)
    (hs : (list_databases self sd).1 = Except.ok out) :
    (∃ j, sd.ser_databases ⟨response.database_list.map (fun db => db.name)⟩ = Except.ok j ∧
        out = CallToolResult.success [Content.json j]) ∧
    (list_databases self sd).2.countP Effect.isBackendCall = 1 := by
  constructor
  · simp only [list_databases, hb] at hs
    cases hser : sd.ser_databases ⟨databasesOf response⟩ with
    | error e =>
        rw [hser] at hs
        exact Except.noConfusion hs
    | ok j =>
        rw [hser] at hs
        refine ⟨j, ?_, ?_⟩
        · simpa [databasesOf] using hser
        · cases hs
          rfl
  · simp [list_databases, List.countP_cons, Effect.isBackendCall]

/-- C1 witness: on a backend reporting databases sales and ops, the call
succeeds with exactly those names in that order and one backend call. -/
theorem list_databases_identity_witness :
    (∃ j, serdeJson.ser_databases ⟨["sales", "ops"]⟩ = Except.ok j ∧
        CallToolResult.success [Content.json (ListDatabasesResult.toJson ⟨["sales", "ops"]⟩)] =
          CallToolResult.success [Content.json j]) ∧
    (list_databases catSales serdeJson).2.countP Effect.isBackendCall = 1 :=
  list_databases_identity catSales serdeJson ⟨[⟨"sales"⟩, ⟨"ops"⟩]⟩ rfl
    (CallToolResult.success [Content.json (ListDatabasesResult.toJson ⟨["sales", "ops"]⟩)]) rfl

/-- C2: a successful `get_database_metadata` call echoes the input database
name exactly in the name field, and its tables sequence is exactly the
table names the backend reports for that database, in backend order. -/
theorem get_database_metadata_echo (self : GlueDataCatalog) (sd : Serde)
    (database_name : String) (response : GetTablesResponse)
    (hb : self.client.tables_response database_name = Except.ok response)
    (out : CallToolResult)
    (hs : (get_database_metadata self sd database_name).1 = Except.ok out) :
    ∃ j, sd.ser_database_metadata
        ⟨database_name, response.table_list.map (fun t => t.name)⟩ = Except.ok j ∧
      out = CallToolResult.success [Content.json j] := by
  simp only [get_database_metadata, hb] at hs
  cases hser : sd.ser_database_metadata ⟨database_name, tablesOf response⟩ with
  | error e =>
      rw [hser] at hs
      exact Except.noConfusion hs
  | ok j =>
      rw [hser] at hs
      refine ⟨j, ?_, ?_⟩
      · simpa [tablesOf] using hser
      · cases hs
        rfl

/-- C2 witness: for database db1 whose backend reports one table t1, the
echoed record is the serialized pair of the input name and that table. -/
theorem get_database_metadata_echo_witness :
    ∃ j, serdeJson.ser_database_metadata ⟨"db1", ["t1"]⟩ = Except.ok j ∧
      CallToolResult.success [Content.json (DatabaseMetadata.toJson ⟨"db1", ["t1"]⟩)] =
        CallToolResult.success [Content.json j] :=
  get_database_metadata_echo catSales serdeJson "db1"
    ⟨[⟨"t1", some ⟨[⟨"id"⟩, ⟨"name"⟩]⟩⟩]⟩ rfl
    (CallToolResult.success [Content.json (DatabaseMetadata.toJson ⟨"db1", ["t1"]⟩)]) rfl

/-- C3: when the backend describe-table call succeeds but the table has no
storage descriptor (including an absent table object) or the descriptor has
no columns, `get_table_metadata` succeeds — it is not an error — with an
empty columns sequence and the input table name echoed. -/
theorem get_table_metadata_no_descriptor (self : GlueDataCatalog)
    (database_name : String) (table_name : String) (response : GetTableResponse)
    (hb : self.client.table_response database_name table_name = Except.ok response)
    (hempty : response.table.bind (fun t => t.storage_descriptor) = none ∨
      ∃ descr, response.table.bind (fun t => t.storage_descriptor) = some descr ∧
        descr.columns = []) :
    (get_table_metadata self serdeJson database_name table_name).1 =
      Except.ok (CallToolResult.success
        [Content.json (TableMetadata.toJson ⟨table_name, []⟩)]) := by
  have hcols : columnsOf response = [] := by
    unfold columnsOf
    rcases hempty with h | ⟨descr, h, hc⟩
    · rw [h]
      rfl
    · rw [h]
      simp [hc]
  simp [get_table_metadata, hb, hcols, serdeJson]

/-- C3 witness: the sample backend's table t1 has no storage descriptor and
the call succeeds with an empty columns sequence. -/
theorem get_table_metadata_no_descriptor_witness :
    (get_table_metadata catSales serdeJson "db1" "t1").1 =
      Except.ok (CallToolResult.success
        [Content.json (TableMetadata.toJson ⟨"t1", []⟩)]) :=
  get_table_metadata_no_descriptor catSales "db1" "t1" ⟨some ⟨"t1", none⟩⟩ rfl (Or.inl rfl)

/-- C4: for each of the three catalog operations, a failed backend call
yields an internal-error failure whose payload carries the backend error's
description, with still exactly one backend call (no retry) and no
successful or partial result — the operation's value is the error itself. -/
theorem backend_failure_internal_error (self : GlueDataCatalog) (sd : Serde)
    (e : AwsError) (database_name : String) (table_name : String)
    (h1 : self.client.databases_response = Except.error e)
    (h2 : self.client.tables_response database_name = Except.error e)
    (h3 : self.client.table_response database_name table_name = Except.error e) :
    ((list_databases self sd).1 =
        Except.error (McpError.internal_error "Failed to list databases"
          (some (errJson e.msg))) ∧
      (list_databases self sd).2.countP Effect.isBackendCall = 1) ∧
    ((get_database_metadata self sd database_name).1 =
        Except.error (McpError.internal_error "Failed to get tables"
          (some (errJson e.msg))) ∧
      (get_database_metadata self sd database_name).2.countP Effect.isBackendCall = 1) ∧
    ((get_table_metadata self sd database_name table_name).1 =
        Except.error (McpError.internal_error "Failed to get table metadata"
          (some (errJson e.msg))) ∧
      (get_table_metadata self sd database_name table_name).2.countP
        Effect.isBackendCall = 1) := by
  refine ⟨⟨?_, ?_⟩, ⟨?_, ?_⟩, ⟨?_, ?_⟩⟩ <;>
    simp [list_databases, get_database_metadata, get_table_metadata, h1, h2, h3,
      List.countP_cons, Effect.isBackendCall]

/-- C4 witness: on a backend denying every call, all three operations fail
with the internal error carrying the description, after one call each. -/
theorem backend_failure_internal_error_witness :
    ((list_databases catFail serdeJson).1 =
        Except.error (McpError.internal_error "Failed to list databases"
          (some (errJson "denied"))) ∧
      (list_databases catFail serdeJson).2.countP Effect.isBackendCall = 1) ∧
    ((get_database_metadata catFail serdeJson "d").1 =
        Except.error (McpError.internal_error "Failed to get tables"
          (some (errJson "denied"))) ∧
      (get_database_metadata catFail serdeJson "d").2.countP Effect.isBackendCall = 1) ∧
    ((get_table_metadata catFail serdeJson "d" "t").1 =
        Except.error (McpError.internal_error "Failed to get table metadata"
          (some (errJson "denied"))) ∧
      (get_table_metadata catFail serdeJson "d" "t").2.countP
        Effect.isBackendCall = 1) :=
  backend_failure_internal_error catFail serdeJson ⟨"denied"⟩ "d" "t" rfl rfl rfl

/-- C5: in each of the three operations, a serialization failure after a
successful backend call is surfaced as an internal error with the fixed
serialization message and a payload carrying the encoding error's
description; that message differs from each operation's backend-failure
message, so the two causes are distinguishable. -/
theorem serde_failure_distinct (self : GlueDataCatalog) (sd : Serde)
    (se : SerdeError) (database_name : String) (table_name : String)
    (r1 : GetDatabasesResponse) (r2 : GetTablesResponse) (r3 : GetTableResponse)
    (hb1 : self.client.databases_response = Except.ok r1)
    (hb2 : self.client.tables_response database_name = Except.ok r2)
    (hb3 : self.client.table_response database_name table_name = Except.ok r3)
    (hs1 : sd.ser_databases ⟨databasesOf r1⟩ = Except.error se)
    (hs2 : sd.ser_database_metadata ⟨database_name, tablesOf r2⟩ = Except.error se)
    (hs3 : sd.ser_table_metadata ⟨table_name, columnsOf r3⟩ = Except.error se) :
    ((list_databases self sd).1 =
        Except.error (McpError.internal_error "Failed to serialize result"
          (some (errJson se.msg)))) ∧
    ((get_database_metadata self sd database_name).1 =
        Except.error (McpError.internal_error "Failed to serialize result"
          (some (errJson se.msg)))) ∧
    ((get_table_metadata self sd database_name table_name).1 =
        Except.error (McpError.internal_error "Failed to serialize result"
          (some (errJson se.msg)))) ∧
    ("Failed to serialize result" ≠ "Failed to list databases" ∧
      "Failed to serialize result" ≠ "Failed to get tables" ∧
      "Failed to serialize result" ≠ "Failed to get table metadata") := by
  refine ⟨?_, ?_, ?_, by decide⟩ <;>
    simp [list_databases, get_database_metadata, get_table_metadata,
      hb1, hb2, hb3, hs1, hs2, hs3]

/-- C5 witness: with the sample backend succeeding and a serializer failing
with description boom, each operation reports the serialization error. -/
theorem serde_failure_distinct_witness :
    ((list_databases catSales sdFail).1 =
        Except.error (McpError.internal_error "Failed to serialize result"
          (some (errJson "boom")))) ∧
    ((get_database_metadata catSales sdFail "db1").1 =
        Except.error (McpError.internal_error "Failed to serialize result"
          (some (errJson "boom")))) ∧
    ((get_table_metadata catSales sdFail "db1" "t1").1 =
        Except.error (McpError.internal_error "Failed to serialize result"
          (some (errJson "boom")))) ∧
    ("Failed to serialize result" ≠ "Failed to list databases" ∧
      "Failed to serialize result" ≠ "Failed to get tables" ∧
      "Failed to serialize result" ≠ "Failed to get table metadata") :=
  serde_failure_distinct catSales sdFail ⟨"boom"⟩ "db1" "t1"
    ⟨[⟨"sales"⟩, ⟨"ops"⟩]⟩ ⟨[⟨"t1", some ⟨[⟨"id"⟩, ⟨"name"⟩]⟩⟩]⟩ ⟨some ⟨"t1", none⟩⟩
    rfl rfl rfl rfl rfl rfl

/-- C6 counterexample: the claim says every invocation of a catalog
operation increments a counter tagged by the operation name; on a concrete
successful invocation the effect trace contains no counter increment at
all, so the claim is false. -/
theorem counter_increment_counterexample :
    ¬ ((list_databases catSales serdeJson).2.any Effect.isCounterIncr = true) := by
  decide

/-- C6 amended: the handlers install no metric counters — each of the three
catalog operations performs zero counter increments; its per-call side
effects are exactly one backend call plus informational log lines (one
before the call, and for `get_table_metadata` one after a successful call
reporting the column count). -/
theorem catalog_ops_effects (self : GlueDataCatalog) (sd : Serde)
    (database_name : String) (table_name : String) :
    ((list_databases self sd).2 =
      [Effect.logInfo ("Listing databases in " ++ self.client.region),
       Effect.callGetDatabases] ∧
      (list_databases self sd).2.countP Effect.isCounterIncr = 0) ∧
    ((get_database_metadata self sd database_name).2 =
      [Effect.logInfo ("Getting tables for database " ++ database_name),
       Effect.callGetTables database_name] ∧
      (get_database_metadata self sd database_name).2.countP Effect.isCounterIncr = 0) ∧
    ((get_table_metadata self sd database_name table_name).2.countP
        Effect.isCounterIncr = 0 ∧
      (get_table_metadata self sd database_name table_name).2.countP
        Effect.isBackendCall = 1) := by
  refine ⟨⟨rfl, ?_⟩, ⟨rfl, ?_⟩, ?_, ?_⟩ <;>
    rcases h : self.client.table_response database_name table_name with e | r <;>
      simp [list_databases, get_database_metadata, get_table_metadata, h,
        List.countP_cons, Effect.isCounterIncr, Effect.isBackendCall]

/-- C7: `get_info` returns the same fixed record for every facade state:
the constant protocol version 2024-11-05, capabilities advertising tools
only (no resource or prompt capability), and a non-empty instructions
string; the response does not depend on the facade. -/
theorem get_info_fixed (impl : Implementation) (self : GlueDataCatalog)
    (other : GlueDataCatalog) :
    get_info impl self =
      ⟨V_2024_11_05, ⟨none, none, some ⟨none⟩⟩, impl, some instructionsText⟩ ∧
    (get_info impl self).capabilities.tools = some ⟨none⟩ ∧
    (get_info impl self).capabilities.resources = none ∧
    (get_info impl self).capabilities.prompts = none ∧
    (get_info impl self).protocol_version = "2024-11-05" ∧
    (get_info impl self).instructions = some instructionsText ∧
    instructionsText ≠ "" ∧
    get_info impl self = get_info impl other := by
  refine ⟨rfl, rfl, rfl, rfl, rfl, rfl, ?_, rfl⟩
  decide

/-- C8: `from_env` probes the backend with one `GetDatabases` call before
returning; if the probe fails, construction aborts the program (no facade
is returned), and on success it returns the facade holding the constructed
client. -/
theorem from_env_probe (client : GlueClient) :
    (from_env client).2 = [Effect.callGetDatabases] ∧
    (∀ e, client.databases_response = Except.error e → (from_env client).1 = none) ∧
    (∀ r, client.databases_response = Except.ok r → (from_env client).1 = some ⟨client⟩) := by
  refine ⟨rfl, ?_, ?_⟩
  · intro e h
    simp [from_env, h]
  · intro r h
    simp [from_env, h]

/-- C8 witness: the probe succeeds on the sample backend and the facade
holds that client; it aborts on the denying backend. -/
theorem from_env_probe_witness :
    (from_env clSales).1 = some ⟨clSales⟩ ∧ (from_env clFail).1 = none :=
  ⟨(from_env_probe clSales).2.2 ⟨[⟨"sales"⟩, ⟨"ops"⟩]⟩ rfl,
   (from_env_probe clFail).2.1 ⟨"denied"⟩ rfl⟩

/-- C9: the facade validates no input of its own: any string argument,
the empty string included, is forwarded unchanged to the backend call, and
every error any of the three catalog operations produces has the internal
error code — never invalid parameters. -/
theorem no_input_validation (self : GlueDataCatalog) (sd : Serde)
    (database_name : String) (table_name : String) :
    Effect.callGetTables database_name ∈ (get_database_metadata self sd database_name).2 ∧
    Effect.callGetTable database_name table_name ∈
      (get_table_metadata self sd database_name table_name).2 ∧
    (∀ err, (list_databases self sd).1 = Except.error err →
      err.code = ErrorCode.internal_error) ∧
    (∀ err, (get_database_metadata self sd database_name).1 = Except.error err →
      err.code = ErrorCode.internal_error) ∧
    (∀ err, (get_table_metadata self sd database_name table_name).1 = Except.error err →
      err.code = ErrorCode.internal_error) := by
  refine ⟨?_, ?_, ?_, ?_, ?_⟩
  · simp [get_database_metadata]
  · rcases h : self.client.table_response database_name table_name with e | r <;>
      simp [get_table_metadata, h]
  · intro err h
    rcases hb : self.client.databases_response with e | r
    · simp only [list_databases, hb, Except.error.injEq] at h
      subst h
      rfl
    · cases hser : sd.ser_databases ⟨databasesOf r⟩ with
      | error se =>
          simp only [list_databases, hb, hser, Except.error.injEq] at h
          subst h
          rfl
      | ok j =>
          simp only [list_databases, hb, hser] at h
          exact Except.noConfusion h
  · intro err h
    rcases hb : self.client.tables_response database_name with e | r
    · simp only [get_database_metadata, hb, Except.error.injEq] at h
      subst h
      rfl
    · cases hser : sd.ser_database_metadata ⟨database_name, tablesOf r⟩ with
      | error se =>
          simp only [get_database_metadata, hb, hser, Except.error.injEq] at h
          subst h
          rfl
      | ok j =>
          simp only [get_database_metadata, hb, hser] at h
          exact Except.noConfusion h
  · intro err h
    rcases hb : self.client.table_response database_name table_name with e | r
    · simp only [get_table_metadata, hb, Except.error.injEq] at h
      subst h
      rfl
    · cases hser : sd.ser_table_metadata ⟨table_name, columnsOf r⟩ with
      | error se =>
          simp only [get_table_metadata, hb, hser, Except.error.injEq] at h
          subst h
          rfl
      | ok j =>
          simp only [get_table_metadata, hb, hser] at h
          exact Except.noConfusion h

/-- C9 witness: the empty database name is forwarded verbatim to the
backend, and the error produced for it there has the internal error code. -/
theorem no_input_validation_witness :
    Effect.callGetTables "" ∈ (get_database_metadata catFail serdeJson "").2 ∧
    (McpError.internal_error "Failed to get tables" (some (errJson "denied"))).code =
      ErrorCode.internal_error :=
  ⟨(no_input_validation catFail serdeJson "" "").1,
   (no_input_validation catFail serdeJson "" "").2.2.2.1
     (McpError.internal_error "Failed to get tables" (some (errJson "denied"))) rfl⟩

/-- C10: `list_resources` always answers with the empty resource list and
no cursor, yet `read_resource` succeeds for exactly the two fixed URIs —
returning their fixed texts with the URI echoed in the contents — and
answers resource-not-found for every other URI. -/
theorem resources_surface (self : GlueDataCatalog) (uri : String)
    (h1 : uri ≠ "str:////Users/to/some/path/") (h2 : uri ≠ "memo://insights") :
    list_resources self = Except.ok ⟨[], none⟩ ∧
    read_resource self "str:////Users/to/some/path/" =
      Except.ok ⟨[⟨"str:////Users/to/some/path/", "/Users/to/some/path/"⟩]⟩ ∧
    read_resource self "memo://insights" = Except.ok ⟨[⟨"memo://insights", memoText⟩]⟩ ∧
    read_resource self uri = Except.error (McpError.resource_not_found "resource_not_found"
      (some (Json.obj [("uri", Json.str uri)]))) := by
  refine ⟨rfl, rfl, rfl, ?_⟩
  simp [read_resource, h1, h2]

/-- C10 witness: the URI other matches neither fixed arm and is rejected
with resource-not-found, while the two fixed URIs succeed. -/
theorem resources_surface_witness :
    list_resources catSales = Except.ok ⟨[], none⟩ ∧
    read_resource catSales "str:////Users/to/some/path/" =
      Except.ok ⟨[⟨"str:////Users/to/some/path/", "/Users/to/some/path/"⟩]⟩ ∧
    read_resource catSales "memo://insights" =
      Except.ok ⟨[⟨"memo://insights", memoText⟩]⟩ ∧
    read_resource catSales "other" =
      Except.error (McpError.resource_not_found "resource_not_found"
        (some (Json.obj [("uri", Json.str "other")]))) :=
  resources_surface catSales "other" (by decide) (by decide)

end GlueMcp
